import Mathlib

/-!
# Verification of the `flight_mech` maneuver module

Shallow embedding of `flight_mech/maneuver.py` (classes `TakeOffManeuver` and
`LandingManeuver`) and proofs about its trajectory integrator.

Modelling conventions:
* Python floats are modelled as real numbers (`ℝ`); `np.cos`, `np.sin` are
  `Real.cos`, `Real.sin`; `np.power (v, 2)` is `v ^ 2`.
* The Python code appends to per-variable lists and reads `list[-1]`.  Lists
  are stored here newest-first: `list[-1]` is `List.headI`, `append` is `cons`.
  The chronological (recorded) order of a trajectory field is `.reverse`.
* Phase tags are Python strings; here they are closed inductive types with one
  constructor per tag.
* The class `Plane` (file `plane.py`) is not part of the sources; following the
  specification it is an external collaborator providing pure functions, and is
  modelled as a structure of abstract function fields.
-/

/-- Take-off phases, the string tags `"initial_acceleration"`, `"rotation"`,
`"flight"` of `TakeOffManeuver.compute_evolution`. -/
inductive Phase where
  | initial_acceleration
  | rotation
  | flight
  deriving DecidableEq, Repr, Inhabited

/-- Rank of a take-off phase in the ordering
`initial_acceleration < rotation < flight`. -/
def phaseRank : Phase → ℕ
  | Phase.initial_acceleration => 0
  | Phase.rotation => 1
  | Phase.flight => 2

theorem Phase.ia_ne_rot : Phase.initial_acceleration ≠ Phase.rotation := by simp

theorem Phase.ia_ne_fl : Phase.initial_acceleration ≠ Phase.flight := by simp

theorem Phase.rot_ne_ia : Phase.rotation ≠ Phase.initial_acceleration := by simp

theorem Phase.rot_ne_fl : Phase.rotation ≠ Phase.flight := by simp

theorem Phase.fl_ne_ia : Phase.flight ≠ Phase.initial_acceleration := by simp

theorem Phase.fl_ne_rot : Phase.flight ≠ Phase.rotation := by simp

/-- Landing phases, the string tags `"initial_touchdown"`, `"rotation"`,
`"braking"`, `"stopped"` of `LandingManeuver.compute_evolution`. -/
inductive LandingPhase where
  | initial_touchdown
  | rotation
  | braking
  | stopped
  deriving DecidableEq, Repr, Inhabited

noncomputable section

/-- Modelled from the spec: the atmosphere model is an external collaborator
with the single contract `compute_density_from_altitude(altitude) -> density`,
a pure function (spec section 6); the module resolving it for the plane object
(`plane.py`) is not among the sources. -/
structure AtmosphereModel where
  compute_density_from_altitude : ℝ → ℝ

/-- Modelled from the spec: the aircraft performance model `Plane`
(file `plane.py`, not among the sources) is an external collaborator: "given
velocity, altitude, and angle of attack, returns lift, drag, thrust, weight,
and stall/aerodynamic limits. Pure function of its configured coefficients"
(spec sections 1 and 6).  Only the members read by `maneuver.py` are kept:
mass `m`, weight `P`, reference surface `S`, stall angle `alpha_stall`, zero
lift drag coefficient `C_D_0`, coefficient curves `C_L`, `C_D`, nominal thrust
`compute_thrust(altitude)`, forces `compute_lift(v, z, alpha)` and
`compute_drag(v, z, alpha)`, and the attached atmosphere model. -/
structure Plane where
  m : ℝ
  P : ℝ
  S : ℝ
  alpha_stall : ℝ
  C_D_0 : ℝ
  C_L : ℝ → ℝ
  C_D : ℝ → ℝ
  compute_thrust : ℝ → ℝ
  compute_lift : ℝ → ℝ → ℝ → ℝ
  compute_drag : ℝ → ℝ → ℝ → ℝ
  atmosphere_model : AtmosphereModel

namespace TakeOffManeuver

/-- Configuration attributes of a `TakeOffManeuver` instance as read by
`compute_evolution` (the instance with its `end_take_off_altitude` attribute
present; the constructor itself is modelled separately below). -/
structure Config where
  plane_model : Plane
  thrust_evolution_function : ℝ → ℝ
  ground_rotation_speed : ℝ
  air_rotation_speed : ℝ := 1
  rotation_sequence_trigger_speed : ℝ
  ground_friction_coefficient : ℝ
  max_ground_angle_of_incidence : ℝ
  ground_altitude : ℝ
  end_take_off_altitude : ℝ
  dt : ℝ := 0.1
  nb_max_iterations : ℕ := 1000

/-- Mutable evolution state of a `TakeOffManeuver` instance: the seventeen
trajectory lists (stored newest-first) and the two timer attributes. -/
structure State where
  phase_list : List Phase
  time_list : List ℝ
  thrust_list : List ℝ
  incidence_list : List ℝ
  pitch_list : List ℝ
  altitude_list : List ℝ
  lift_coefficient_list : List ℝ
  drag_coefficient_list : List ℝ
  ground_distance_list : List ℝ
  velocity_list : List ℝ
  acceleration_list : List ℝ
  pitch_derivative_list : List ℝ
  ground_reaction_force_list : List ℝ
  ground_friction_force_list : List ℝ
  drag_list : List ℝ
  lift_list : List ℝ
  rho_list : List ℝ
  rotation_start_time : Option ℝ
  flight_start_time : Option ℝ

/-- `TakeOffManeuver._initialize_evolution_variables` (maneuver.py 155-183). -/
def init_evolution_variables (c : Config) : State :=
  { phase_list := [Phase.initial_acceleration]
    time_list := [0]
    thrust_list := [c.thrust_evolution_function 0]
    incidence_list := [0]
    pitch_list := [0]
    altitude_list := [c.ground_altitude]
    lift_coefficient_list := [c.plane_model.C_L 0]
    drag_coefficient_list := [c.plane_model.C_D_0]
    ground_distance_list := [0]
    velocity_list := [0]
    acceleration_list := [0]
    pitch_derivative_list := [0]
    ground_reaction_force_list := [c.plane_model.P]
    ground_friction_force_list := [c.plane_model.P * c.ground_friction_coefficient]
    drag_list := [c.plane_model.compute_drag 0 c.ground_altitude 0]
    lift_list := [c.plane_model.compute_lift 0 c.ground_altitude 0]
    rho_list := [c.plane_model.atmosphere_model.compute_density_from_altitude c.ground_altitude]
    rotation_start_time := none
    flight_start_time := none }

/-- The phase classifier of `TakeOffManeuver.compute_evolution`
(maneuver.py 196-205), as a function of the previous step's velocity and
ground reaction force. -/
def determinePhase (c : Config) (v grf : ℝ) : Phase :=
  if v > c.rotation_sequence_trigger_speed ∧ grf ≤ 0 then Phase.flight
  else if v > c.rotation_sequence_trigger_speed then Phase.rotation
  else Phase.initial_acceleration

/-- One iteration of the `while` loop of `TakeOffManeuver.compute_evolution`
(maneuver.py 192-304): computes the `current_*` local variables from the last
recorded values and appends them to the trajectory lists. -/
def step (c : Config) (s : State) : State :=
  let current_time := s.time_list.headI + c.dt
  let current_phase :=
    determinePhase c s.velocity_list.headI s.ground_reaction_force_list.headI
  let flight_start_time :=
    if current_phase = Phase.flight ∧ s.phase_list.headI = Phase.rotation
    then some current_time else s.flight_start_time
  let rotation_start_time :=
    if current_phase = Phase.rotation ∧ s.phase_list.headI = Phase.initial_acceleration
    then some current_time else s.rotation_start_time
  let current_thrust :=
    c.plane_model.compute_thrust s.altitude_list.headI *
      c.thrust_evolution_function current_time
  let current_incidence :=
    min (s.incidence_list.headI
        + c.ground_rotation_speed * c.dt * (if current_phase = Phase.rotation then 1 else 0)
        + c.air_rotation_speed * c.dt * (if current_phase = Phase.flight then 1 else 0))
      c.plane_model.alpha_stall
  let current_pitch :=
    if current_phase = Phase.flight
    then s.pitch_list.headI + s.pitch_derivative_list.headI * c.dt else 0
  let current_lift_coefficient := c.plane_model.C_L current_incidence
  let current_drag_coefficient := c.plane_model.C_D current_incidence
  let current_rho :=
    c.plane_model.atmosphere_model.compute_density_from_altitude s.altitude_list.headI
  let current_drag :=
    c.plane_model.compute_drag s.velocity_list.headI s.altitude_list.headI
      s.incidence_list.headI
  let current_lift :=
    c.plane_model.compute_lift s.velocity_list.headI s.altitude_list.headI
      s.incidence_list.headI
  let vertical_force :=
    c.plane_model.P * Real.cos current_pitch - current_lift
      - current_thrust * Real.sin current_incidence
  let current_pitch_derivative :=
    if current_phase = Phase.flight
    then -vertical_force / (c.plane_model.m * s.velocity_list.headI) else 0
  let current_ground_reaction_force :=
    if current_phase = Phase.flight then 0 else max vertical_force 0
  let current_ground_friction_force :=
    current_ground_reaction_force * c.ground_friction_coefficient
  let current_acceleration :=
    if current_phase = Phase.flight
    then (current_thrust * Real.cos current_incidence - current_drag
          - c.plane_model.P * Real.sin current_pitch) / c.plane_model.m
    else (current_thrust * Real.cos current_incidence - current_drag
          - current_ground_friction_force) / c.plane_model.m
  let current_velocity := s.velocity_list.headI + current_acceleration * c.dt
  let current_ground_distance :=
    s.ground_distance_list.headI + current_velocity * c.dt * Real.cos current_pitch
  let current_altitude :=
    s.altitude_list.headI + current_velocity * c.dt * Real.sin current_pitch
  { phase_list := current_phase :: s.phase_list
    time_list := current_time :: s.time_list
    thrust_list := current_thrust :: s.thrust_list
    incidence_list := current_incidence :: s.incidence_list
    pitch_list := current_pitch :: s.pitch_list
    lift_coefficient_list := current_lift_coefficient :: s.lift_coefficient_list
    drag_coefficient_list := current_drag_coefficient :: s.drag_coefficient_list
    acceleration_list := current_acceleration :: s.acceleration_list
    velocity_list := current_velocity :: s.velocity_list
    ground_distance_list := current_ground_distance :: s.ground_distance_list
    rho_list := current_rho :: s.rho_list
    pitch_derivative_list := current_pitch_derivative :: s.pitch_derivative_list
    drag_list := current_drag :: s.drag_list
    lift_list := current_lift :: s.lift_list
    altitude_list := current_altitude :: s.altitude_list
    ground_reaction_force_list := current_ground_reaction_force :: s.ground_reaction_force_list
    ground_friction_force_list := current_ground_friction_force :: s.ground_friction_force_list
    rotation_start_time := rotation_start_time
    flight_start_time := flight_start_time }

/-- The `while` loop of `TakeOffManeuver.compute_evolution` (maneuver.py 191),
with explicit fuel.  Each iteration lengthens `phase_list` by one, so fuel
`c.nb_max_iterations` is enough for the guard `len < nb_max_iterations` to
stop the loop (see `evolutionState`). -/
def loop (c : Config) : ℕ → State → State
  | 0, s => s
  | fuel + 1, s =>
    if s.altitude_list.headI < c.end_take_off_altitude ∧
        s.phase_list.length < c.nb_max_iterations
    then loop c fuel (step c s)
    else s

/-- The evolution state produced by `TakeOffManeuver.compute_evolution`
(maneuver.py 185-304): initialization followed by the integration loop. -/
def evolutionState (c : Config) : State :=
  loop c c.nb_max_iterations (init_evolution_variables c)

/-- A `TakeOffManeuver` instance: its configuration attributes together with
its mutable evolution state. -/
structure Obj where
  cfg : Config
  st : State

/-- `TakeOffManeuver.compute_evolution` acting on the instance: it re-runs
`_initialize_evolution_variables` and the loop, replacing the whole mutable
state; the configuration attributes are untouched. -/
def compute_evolution (o : Obj) : Obj :=
  { cfg := o.cfg, st := evolutionState o.cfg }

/-- The attributes assigned by `TakeOffManeuver.__init__` (maneuver.py
134-153).  `end_take_off_altitude` is an `Option`: the Python class only
declares the attribute (a bare annotation), and `__init__` assigns it solely
in the branch where its argument is `None`; `none` here models the attribute
being left unset (reading it raises `AttributeError`). -/
structure InitAttrs where
  plane_model : Plane
  ground_rotation_speed : ℝ
  thrust_evolution_function : ℝ → ℝ
  rotation_sequence_trigger_speed : ℝ
  ground_friction_coefficient : ℝ
  max_ground_angle_of_incidence : ℝ
  ground_altitude : ℝ
  end_take_off_altitude : Option ℝ

/-- `TakeOffManeuver.__init__` (maneuver.py 134-153). -/
def construct (plane_model : Plane) (rotation_speed : ℝ)
    (rotation_sequence_trigger_speed : ℝ) (thrust_evolution_function : ℝ → ℝ)
    (ground_friction_coefficient : ℝ) (max_ground_angle_of_incidence : ℝ)
    (ground_altitude : ℝ) (end_take_off_altitude : Option ℝ) : InitAttrs :=
  { plane_model := plane_model
    ground_rotation_speed := rotation_speed
    thrust_evolution_function := thrust_evolution_function
    rotation_sequence_trigger_speed := rotation_sequence_trigger_speed
    ground_friction_coefficient := ground_friction_coefficient
    max_ground_angle_of_incidence := max_ground_angle_of_incidence
    ground_altitude := ground_altitude
    end_take_off_altitude :=
      match end_take_off_altitude with
      | none => some (ground_altitude + 30)
      | some _ => none }

end TakeOffManeuver

namespace LandingManeuver

/-- Configuration attributes of a `LandingManeuver` instance as read by
`compute_evolution`. -/
structure Config where
  plane_model : Plane
  thrust_evolution_function : ℝ → ℝ
  ground_rotation_speed : ℝ
  initial_velocity : ℝ
  ground_friction_coefficient : ℝ
  braking_friction_coefficient : ℝ
  initial_incidence : ℝ
  ground_altitude : ℝ
  parachute_drag_coefficient : ℝ
  parachute_reference_surface : ℝ
  dt : ℝ := 0.1
  nb_max_iterations : ℕ := 1000

/-- Mutable evolution state of a `LandingManeuver` instance: the fourteen
trajectory lists (stored newest-first) and the timer attributes. -/
structure State where
  phase_list : List LandingPhase
  time_list : List ℝ
  thrust_list : List ℝ
  incidence_list : List ℝ
  lift_coefficient_list : List ℝ
  drag_coefficient_list : List ℝ
  ground_distance_list : List ℝ
  velocity_list : List ℝ
  acceleration_list : List ℝ
  ground_reaction_force_list : List ℝ
  ground_friction_force_list : List ℝ
  drag_list : List ℝ
  lift_list : List ℝ
  braking_energy_list : List ℝ
  braking_start_time : Option ℝ
  stop_time : Option ℝ

/-- `LandingManeuver._initialize_evolution_variables` (maneuver.py 387-411). -/
def init_evolution_variables (c : Config) : State :=
  let velocity_list : List ℝ := [c.initial_velocity]
  let rho :=
    c.plane_model.atmosphere_model.compute_density_from_altitude c.ground_altitude
  { phase_list := [LandingPhase.initial_touchdown]
    time_list := [0]
    thrust_list := [c.thrust_evolution_function 0]
    incidence_list := [c.initial_incidence]
    lift_coefficient_list := [c.plane_model.C_L 0]
    drag_coefficient_list := [c.plane_model.C_D_0]
    ground_distance_list := [0]
    velocity_list := velocity_list
    acceleration_list := [0]
    ground_reaction_force_list := [0]
    ground_friction_force_list := [0]
    drag_list := [c.plane_model.compute_drag c.initial_velocity c.ground_altitude
        c.initial_incidence
      + 1 / 2 * rho * velocity_list.headI ^ 2 * c.parachute_drag_coefficient
        * c.parachute_reference_surface]
    lift_list := [c.plane_model.compute_lift c.initial_velocity c.ground_altitude
        c.initial_incidence]
    braking_energy_list := [0]
    braking_start_time := none
    stop_time := none }

/-- The phase classifier of `LandingManeuver.compute_evolution`
(maneuver.py 427-434), as a function of the previous step's velocity and
incidence. -/
def determinePhase (v incidence : ℝ) : LandingPhase :=
  if v ≤ 0 then LandingPhase.stopped
  else if incidence ≤ 0 then LandingPhase.braking
  else LandingPhase.rotation

/-- One iteration of the `while` loop of `LandingManeuver.compute_evolution`
(maneuver.py 423-507).  The air density `rho` is computed before the loop in
the source (from the fixed ground altitude), so recomputing it each iteration
yields the same value. -/
def step (c : Config) (s : State) : State :=
  let rho :=
    c.plane_model.atmosphere_model.compute_density_from_altitude c.ground_altitude
  let current_time := s.time_list.headI + c.dt
  let current_phase := determinePhase s.velocity_list.headI s.incidence_list.headI
  let braking_start_time :=
    if current_phase = LandingPhase.braking ∧ s.phase_list.headI = LandingPhase.rotation
    then some current_time else s.braking_start_time
  let current_thrust :=
    c.plane_model.compute_thrust c.ground_altitude *
      c.thrust_evolution_function current_time
  let current_incidence :=
    max (s.incidence_list.headI - c.ground_rotation_speed * c.dt) 0
  let current_lift_coefficient := c.plane_model.C_L current_incidence
  let current_drag_coefficient :=
    c.plane_model.C_D current_incidence
      + c.parachute_reference_surface * c.parachute_drag_coefficient / c.plane_model.S
  let current_drag :=
    c.plane_model.compute_drag s.velocity_list.headI c.ground_altitude
        current_incidence
      + 1 / 2 * rho * s.velocity_list.headI ^ 2 * c.parachute_drag_coefficient
        * c.parachute_reference_surface
  let current_lift :=
    c.plane_model.compute_lift s.velocity_list.headI c.ground_altitude
      current_incidence
  let current_ground_reaction_force :=
    c.plane_model.P - current_lift - current_thrust * Real.sin current_incidence
  let current_ground_friction_force :=
    current_ground_reaction_force *
      (c.ground_friction_coefficient + c.braking_friction_coefficient)
  let current_acceleration :=
    (current_thrust * Real.cos current_incidence - current_drag
      - current_ground_friction_force) / c.plane_model.m
  let current_velocity := s.velocity_list.headI + current_acceleration * c.dt
  let current_ground_distance :=
    s.ground_distance_list.headI + current_velocity * c.dt
  let current_braking_energy :=
    s.braking_energy_list.headI + current_ground_reaction_force *
      c.braking_friction_coefficient * current_velocity * c.dt
  { phase_list := current_phase :: s.phase_list
    time_list := current_time :: s.time_list
    thrust_list := current_thrust :: s.thrust_list
    incidence_list := current_incidence :: s.incidence_list
    lift_coefficient_list := current_lift_coefficient :: s.lift_coefficient_list
    drag_coefficient_list := current_drag_coefficient :: s.drag_coefficient_list
    lift_list := current_lift :: s.lift_list
    drag_list := current_drag :: s.drag_list
    ground_reaction_force_list := current_ground_reaction_force :: s.ground_reaction_force_list
    ground_friction_force_list := current_ground_friction_force :: s.ground_friction_force_list
    acceleration_list := current_acceleration :: s.acceleration_list
    velocity_list := current_velocity :: s.velocity_list
    ground_distance_list := current_ground_distance :: s.ground_distance_list
    braking_energy_list := current_braking_energy :: s.braking_energy_list
    braking_start_time := braking_start_time
    stop_time := s.stop_time }

/-- The `while` loop of `LandingManeuver.compute_evolution` (maneuver.py 422),
with explicit fuel (`c.nb_max_iterations` is enough, see `evolutionState`). -/
def loop (c : Config) : ℕ → State → State
  | 0, s => s
  | fuel + 1, s =>
    if s.phase_list.headI ≠ LandingPhase.stopped ∧
        s.phase_list.length < c.nb_max_iterations
    then loop c fuel (step c s)
    else s

/-- The evolution state produced by `LandingManeuver.compute_evolution`
(maneuver.py 413-507). -/
def evolutionState (c : Config) : State :=
  loop c c.nb_max_iterations (init_evolution_variables c)

/-- A `LandingManeuver` instance: configuration plus mutable evolution
state. -/
structure Obj where
  cfg : Config
  st : State

/-- `LandingManeuver.compute_evolution` acting on the instance. -/
def compute_evolution (o : Obj) : Obj :=
  { cfg := o.cfg, st := evolutionState o.cfg }

/-- `LandingManeuver.__init__` (maneuver.py 358-385): assigns the attributes,
then raises a `Warning` when the parachute is only partially defined
(`parachute_drag_coefficient * parachute_reference_surface == 0` while one of
the two is nonzero).  `none` models the constructor raising. -/
def construct (plane_model : Plane) (rotation_speed : ℝ) (initial_velocity : ℝ)
    (thrust_evolution_function : ℝ → ℝ) (ground_friction_coefficient : ℝ)
    (braking_friction_coefficient : ℝ) (initial_incidence : ℝ)
    (ground_altitude : ℝ) (parachute_drag_coefficient : ℝ)
    (parachute_reference_surface : ℝ) : Option Config :=
  if parachute_drag_coefficient * parachute_reference_surface = 0 ∧
      (parachute_reference_surface ≠ 0 ∨ parachute_drag_coefficient ≠ 0)
  then none
  else some
    { plane_model := plane_model
      thrust_evolution_function := thrust_evolution_function
      ground_rotation_speed := rotation_speed
      initial_velocity := initial_velocity
      ground_friction_coefficient := ground_friction_coefficient
      braking_friction_coefficient := braking_friction_coefficient
      initial_incidence := initial_incidence
      ground_altitude := ground_altitude
      parachute_drag_coefficient := parachute_drag_coefficient
      parachute_reference_surface := parachute_reference_surface }

end LandingManeuver

/-! ## Generic lemmas about the take-off integrator -/

namespace TakeOffManeuver

/-- The last recorded values (`list[-1]`) of a take-off state that the loop
body reads, together with the timers and the number of recorded steps. -/
structure Heads where
  time : ℝ
  velocity : ℝ
  altitude : ℝ
  incidence : ℝ
  pitch : ℝ
  pitch_derivative : ℝ
  ground_reaction_force : ℝ
  thrust : ℝ
  phase : Phase
  rotation_start_time : Option ℝ
  flight_start_time : Option ℝ

/-- Projection of a take-off state onto its last recorded values. -/
def State.heads (s : State) : Heads :=
  { time := s.time_list.headI
    velocity := s.velocity_list.headI
    altitude := s.altitude_list.headI
    incidence := s.incidence_list.headI
    pitch := s.pitch_list.headI
    pitch_derivative := s.pitch_derivative_list.headI
    ground_reaction_force := s.ground_reaction_force_list.headI
    thrust := s.thrust_list.headI
    phase := s.phase_list.headI
    rotation_start_time := s.rotation_start_time
    flight_start_time := s.flight_start_time }

/-- The action of `step` on the last recorded values: the loop body reads only
`list[-1]` of each list, so the new heads are a function of the old heads. -/
def stepHeads (c : Config) (h : Heads) : Heads :=
  let current_time := h.time + c.dt
  let current_phase := determinePhase c h.velocity h.ground_reaction_force
  let flight_start_time :=
    if current_phase = Phase.flight ∧ h.phase = Phase.rotation
    then some current_time else h.flight_start_time
  let rotation_start_time :=
    if current_phase = Phase.rotation ∧ h.phase = Phase.initial_acceleration
    then some current_time else h.rotation_start_time
  let current_thrust :=
    c.plane_model.compute_thrust h.altitude * c.thrust_evolution_function current_time
  let current_incidence :=
    min (h.incidence
        + c.ground_rotation_speed * c.dt * (if current_phase = Phase.rotation then 1 else 0)
        + c.air_rotation_speed * c.dt * (if current_phase = Phase.flight then 1 else 0))
      c.plane_model.alpha_stall
  let current_pitch :=
    if current_phase = Phase.flight then h.pitch + h.pitch_derivative * c.dt else 0
  let current_drag := c.plane_model.compute_drag h.velocity h.altitude h.incidence
  let current_lift := c.plane_model.compute_lift h.velocity h.altitude h.incidence
  let vertical_force :=
    c.plane_model.P * Real.cos current_pitch - current_lift
      - current_thrust * Real.sin current_incidence
  let current_pitch_derivative :=
    if current_phase = Phase.flight
    then -vertical_force / (c.plane_model.m * h.velocity) else 0
  let current_ground_reaction_force :=
    if current_phase = Phase.flight then 0 else max vertical_force 0
  let current_ground_friction_force :=
    current_ground_reaction_force * c.ground_friction_coefficient
  let current_acceleration :=
    if current_phase = Phase.flight
    then (current_thrust * Real.cos current_incidence - current_drag
          - c.plane_model.P * Real.sin current_pitch) / c.plane_model.m
    else (current_thrust * Real.cos current_incidence - current_drag
          - current_ground_friction_force) / c.plane_model.m
  let current_velocity := h.velocity + current_acceleration * c.dt
  let current_altitude := h.altitude + current_velocity * c.dt * Real.sin current_pitch
  { time := current_time
    velocity := current_velocity
    altitude := current_altitude
    incidence := current_incidence
    pitch := current_pitch
    pitch_derivative := current_pitch_derivative
    ground_reaction_force := current_ground_reaction_force
    thrust := current_thrust
    phase := current_phase
    rotation_start_time := rotation_start_time
    flight_start_time := flight_start_time }

theorem heads_step (c : Config) (s : State) :
    (step c s).heads = stepHeads c s.heads := rfl

theorem heads_iterate (c : Config) (n : ℕ) :
    ((step c)^[n] (init_evolution_variables c)).heads =
      (stepHeads c)^[n] (init_evolution_variables c).heads := by
  induction n with
  | zero => rfl
  | succ n ih =>
    rw [Function.iterate_succ_apply', Function.iterate_succ_apply', heads_step, ih]

theorem phase_list_step (c : Config) (s : State) :
    (step c s).phase_list =
      determinePhase c s.velocity_list.headI s.ground_reaction_force_list.headI
        :: s.phase_list := rfl

theorem phase_list_length_step (c : Config) (s : State) :
    (step c s).phase_list.length = s.phase_list.length + 1 := by
  rw [phase_list_step]; rfl

theorem phase_list_length_iterate (c : Config) (n : ℕ) (s : State) :
    ((step c)^[n] s).phase_list.length = s.phase_list.length + n := by
  induction n with
  | zero => rfl
  | succ n ih =>
    rw [Function.iterate_succ_apply', phase_list_length_step, ih]; omega

/-- Any predicate preserved by the loop body holds for the loop's result. -/
theorem loop_inv (c : Config) (P : State → Prop)
    (hstep : ∀ s, P s → P (step c s)) :
    ∀ fuel s, P s → P (loop c fuel s) := by
  intro fuel
  induction fuel with
  | zero => intro s hs; exact hs
  | succ fuel ih =>
    intro s hs
    rw [loop]
    split
    · exact ih _ (hstep s hs)
    · exact hs

/-- The loop's result is an iterate of the loop body. -/
theorem loop_eq_iterate (c : Config) :
    ∀ fuel s, ∃ k, loop c fuel s = (step c)^[k] s := by
  intro fuel
  induction fuel with
  | zero => intro s; exact ⟨0, rfl⟩
  | succ fuel ih =>
    intro s
    rw [loop]
    split
    · obtain ⟨k, hk⟩ := ih (step c s)
      exact ⟨k + 1, by rw [hk, Function.iterate_succ_apply]⟩
    · exact ⟨0, rfl⟩

theorem evolutionState_eq_iterate (c : Config) :
    ∃ k, evolutionState c = (step c)^[k] (init_evolution_variables c) :=
  loop_eq_iterate c c.nb_max_iterations (init_evolution_variables c)

end TakeOffManeuver

/-! ## Generic lemmas about the landing integrator -/

namespace LandingManeuver

theorem landing_phase_list_step (c : Config) (s : State) :
    (step c s).phase_list =
      determinePhase s.velocity_list.headI s.incidence_list.headI
        :: s.phase_list := rfl

/-- Any predicate preserved by the loop body holds for the loop's result. -/
theorem landing_loop_inv (c : Config) (P : State → Prop)
    (hstep : ∀ s, P s → P (step c s)) :
    ∀ fuel s, P s → P (loop c fuel s) := by
  intro fuel
  induction fuel with
  | zero => intro s hs; exact hs
  | succ fuel ih =>
    intro s hs
    rw [loop]
    split
    · exact ih _ (hstep s hs)
    · exact hs

end LandingManeuver

/-! ## Equal lengths of the trajectory lists (claim C1) -/

namespace TakeOffManeuver

/-- All seventeen trajectory lists of a take-off state have the same length. -/
def State.sameLengths (s : State) : Prop :=
  s.time_list.length = s.phase_list.length ∧
  s.thrust_list.length = s.phase_list.length ∧
  s.incidence_list.length = s.phase_list.length ∧
  s.pitch_list.length = s.phase_list.length ∧
  s.altitude_list.length = s.phase_list.length ∧
  s.lift_coefficient_list.length = s.phase_list.length ∧
  s.drag_coefficient_list.length = s.phase_list.length ∧
  s.ground_distance_list.length = s.phase_list.length ∧
  s.velocity_list.length = s.phase_list.length ∧
  s.acceleration_list.length = s.phase_list.length ∧
  s.pitch_derivative_list.length = s.phase_list.length ∧
  s.ground_reaction_force_list.length = s.phase_list.length ∧
  s.ground_friction_force_list.length = s.phase_list.length ∧
  s.drag_list.length = s.phase_list.length ∧
  s.lift_list.length = s.phase_list.length ∧
  s.rho_list.length = s.phase_list.length

theorem sameLengths_init (c : Config) :
    (init_evolution_variables c).sameLengths := by
  simp [State.sameLengths, init_evolution_variables]

theorem sameLengths_step (c : Config) (s : State)
    (hs : s.sameLengths) : (step c s).sameLengths := by
  obtain ⟨h1, h2, h3, h4, h5, h6, h7, h8, h9, h10, h11, h12, h13, h14, h15, h16⟩ := hs
  refine ⟨?_, ?_, ?_, ?_, ?_, ?_, ?_, ?_, ?_, ?_, ?_, ?_, ?_, ?_, ?_, ?_⟩ <;>
    simp [step, h1, h2, h3, h4, h5, h6, h7, h8, h9, h10, h11, h12, h13, h14, h15, h16]

theorem sameLengths_iterate (c : Config) (n : ℕ) :
    ((step c)^[n] (init_evolution_variables c)).sameLengths := by
  induction n with
  | zero => exact sameLengths_init c
  | succ n ih => rw [Function.iterate_succ_apply']; exact sameLengths_step c _ ih

theorem sameLengths_evolutionState (c : Config) :
    (evolutionState c).sameLengths :=
  loop_inv c State.sameLengths (sameLengths_step c) _ _ (sameLengths_init c)

end TakeOffManeuver

namespace LandingManeuver

/-- All fourteen trajectory lists of a landing state have the same length. -/
def State.sameLengths (s : State) : Prop :=
  s.time_list.length = s.phase_list.length ∧
  s.thrust_list.length = s.phase_list.length ∧
  s.incidence_list.length = s.phase_list.length ∧
  s.lift_coefficient_list.length = s.phase_list.length ∧
  s.drag_coefficient_list.length = s.phase_list.length ∧
  s.ground_distance_list.length = s.phase_list.length ∧
  s.velocity_list.length = s.phase_list.length ∧
  s.acceleration_list.length = s.phase_list.length ∧
  s.ground_reaction_force_list.length = s.phase_list.length ∧
  s.ground_friction_force_list.length = s.phase_list.length ∧
  s.drag_list.length = s.phase_list.length ∧
  s.lift_list.length = s.phase_list.length ∧
  s.braking_energy_list.length = s.phase_list.length

theorem landing_sameLengths_init (c : Config) :
    (init_evolution_variables c).sameLengths := by
  simp [State.sameLengths, init_evolution_variables]

theorem landing_sameLengths_step (c : Config) (s : State)
    (hs : s.sameLengths) : (step c s).sameLengths := by
  obtain ⟨h1, h2, h3, h4, h5, h6, h7, h8, h9, h10, h11, h12, h13⟩ := hs
  refine ⟨?_, ?_, ?_, ?_, ?_, ?_, ?_, ?_, ?_, ?_, ?_, ?_, ?_⟩ <;>
    simp [step, h1, h2, h3, h4, h5, h6, h7, h8, h9, h10, h11, h12, h13]

theorem landing_sameLengths_iterate (c : Config) (n : ℕ) :
    ((step c)^[n] (init_evolution_variables c)).sameLengths := by
  induction n with
  | zero => exact landing_sameLengths_init c
  | succ n ih => rw [Function.iterate_succ_apply']; exact landing_sameLengths_step c _ ih

theorem landing_sameLengths_evolutionState (c : Config) :
    (evolutionState c).sameLengths :=
  landing_loop_inv c State.sameLengths (landing_sameLengths_step c) _ _
    (landing_sameLengths_init c)

end LandingManeuver

/-- **C1.** For every configuration and every number of completed iterations,
all recorded trajectory sequences of a maneuver instance (the seventeen lists
of `TakeOffManeuver` and the fourteen lists of `LandingManeuver`) have
identical length after each individual loop step, and after
`compute_evolution()` returns. -/
theorem C1_trajectory_lists_same_length (ct : TakeOffManeuver.Config)
    (cl : LandingManeuver.Config) (n : ℕ) :
    ((TakeOffManeuver.step ct)^[n]
        (TakeOffManeuver.init_evolution_variables ct)).sameLengths ∧
    (TakeOffManeuver.evolutionState ct).sameLengths ∧
    ((LandingManeuver.step cl)^[n]
        (LandingManeuver.init_evolution_variables cl)).sameLengths ∧
    (LandingManeuver.evolutionState cl).sameLengths :=
  ⟨TakeOffManeuver.sameLengths_iterate ct n,
   TakeOffManeuver.sameLengths_evolutionState ct,
   LandingManeuver.landing_sameLengths_iterate cl n,
   LandingManeuver.landing_sameLengths_evolutionState cl⟩

/-! ## Concrete configurations used as witnesses -/

/-- A simple aircraft provider: unit mass, weight and surface, zero stall
angle, zero lift/drag, unit nominal thrust and unit air density. -/
def plane0 : Plane :=
  { m := 1
    P := 1
    S := 1
    alpha_stall := 0
    C_D_0 := 0
    C_L := fun _ => 0
    C_D := fun _ => 0
    compute_thrust := fun _ => 1
    compute_lift := fun _ _ _ => 0
    compute_drag := fun _ _ _ => 0
    atmosphere_model := { compute_density_from_altitude := fun _ => 1 } }

/-- A take-off configuration with zero thrust schedule: the plane never moves
(velocity stays 0), so the whole run stays in `initial_acceleration`. -/
def cfg0 : TakeOffManeuver.Config :=
  { plane_model := plane0
    thrust_evolution_function := fun _ => 0
    ground_rotation_speed := 1
    air_rotation_speed := 1
    rotation_sequence_trigger_speed := 1
    ground_friction_coefficient := 0
    max_ground_angle_of_incidence := 0
    ground_altitude := 0
    end_take_off_altitude := 30
    dt := 1
    nb_max_iterations := 2 }

/-- A landing configuration used for the boundary-cap witnesses. -/
def lcfg0 : LandingManeuver.Config :=
  { plane_model := plane0
    thrust_evolution_function := fun _ => 0
    ground_rotation_speed := 1
    initial_velocity := 1
    ground_friction_coefficient := 0
    braking_friction_coefficient := 0
    initial_incidence := 0
    ground_altitude := 0
    parachute_drag_coefficient := 0
    parachute_reference_surface := 0
    dt := 1
    nb_max_iterations := 1 }

/-- Head values stay at rest under `cfg0`: velocity, incidence, pitch, pitch
derivative and altitude remain 0 at every step. -/
def restHeads (h : TakeOffManeuver.Heads) : Prop :=
  h.velocity = 0 ∧ h.incidence = 0 ∧ h.pitch = 0 ∧ h.pitch_derivative = 0 ∧
    h.altitude = 0

theorem restHeads_stepHeads (h : TakeOffManeuver.Heads) (hh : restHeads h) :
    restHeads (TakeOffManeuver.stepHeads cfg0 h) := by
  obtain ⟨hv, hi, hp, hd, ha⟩ := hh
  have hph : TakeOffManeuver.determinePhase cfg0 0 h.ground_reaction_force
      = Phase.initial_acceleration := by
    rw [TakeOffManeuver.determinePhase]
    norm_num [cfg0]
  have hr : Phase.initial_acceleration = Phase.rotation ↔ False := by simp
  have hf : Phase.initial_acceleration = Phase.flight ↔ False := by simp
  refine ⟨?_, ?_, ?_, ?_, ?_⟩ <;>
    simp only [TakeOffManeuver.stepHeads, hv, hi, hp, hd, ha, hph] <;>
    norm_num [cfg0, plane0, Real.sin_zero, Real.cos_zero, hr, hf]

theorem restHeads_iterate (n : ℕ) :
    restHeads ((TakeOffManeuver.step cfg0)^[n]
      (TakeOffManeuver.init_evolution_variables cfg0)).heads := by
  rw [TakeOffManeuver.heads_iterate]
  induction n with
  | zero =>
    refine ⟨?_, ?_, ?_, ?_, ?_⟩ <;>
      simp [TakeOffManeuver.init_evolution_variables, TakeOffManeuver.State.heads,
        cfg0]
  | succ n ih =>
    rw [Function.iterate_succ_apply']
    exact restHeads_stepHeads _ ih

theorem cfg0_velocity_headI (n : ℕ) :
    ((TakeOffManeuver.step cfg0)^[n]
      (TakeOffManeuver.init_evolution_variables cfg0)).velocity_list.headI = 0 :=
  (restHeads_iterate n).1

/-! ## Claim C2: incidence never exceeds the stall angle -/

namespace TakeOffManeuver

theorem incidence_list_step (c : Config) (s : State) :
    (step c s).incidence_list =
      min (s.incidence_list.headI
          + c.ground_rotation_speed * c.dt *
            (if determinePhase c s.velocity_list.headI
                s.ground_reaction_force_list.headI = Phase.rotation then 1 else 0)
          + c.air_rotation_speed * c.dt *
            (if determinePhase c s.velocity_list.headI
                s.ground_reaction_force_list.headI = Phase.flight then 1 else 0))
        c.plane_model.alpha_stall :: s.incidence_list := rfl

theorem incidence_le_stall_step (c : Config) (s : State)
    (hs : ∀ x ∈ s.incidence_list, x ≤ c.plane_model.alpha_stall) :
    ∀ x ∈ (step c s).incidence_list, x ≤ c.plane_model.alpha_stall := by
  rw [incidence_list_step]
  intro x hx
  rcases List.mem_cons.mp hx with h | h
  · rw [h]; exact min_le_right _ _
  · exact hs x h

end TakeOffManeuver

/-- **C2.** In `TakeOffManeuver.compute_evolution`, if the plane model's stall
angle `alpha_stall` is non-negative, then every element of `incidence_list`
(the initial entry and every appended entry) is at most `alpha_stall`. -/
theorem C2_incidence_bounded_by_stall (c : TakeOffManeuver.Config)
    (h : 0 ≤ c.plane_model.alpha_stall) :
    ∀ x ∈ (TakeOffManeuver.evolutionState c).incidence_list,
      x ≤ c.plane_model.alpha_stall := by
  refine TakeOffManeuver.loop_inv c
    (fun s => ∀ x ∈ s.incidence_list, x ≤ c.plane_model.alpha_stall)
    (TakeOffManeuver.incidence_le_stall_step c) _ _ ?_
  intro x hx
  rw [TakeOffManeuver.init_evolution_variables] at hx
  simp only [List.mem_singleton] at hx
  rw [hx]
  exact h

/-- Witness for C2 at the concrete configuration `cfg0`
(whose stall angle is 0). -/
theorem C2_incidence_bounded_by_stall_witness :
    0 ≤ cfg0.plane_model.alpha_stall ∧
    ∀ x ∈ (TakeOffManeuver.evolutionState cfg0).incidence_list,
      x ≤ cfg0.plane_model.alpha_stall :=
  ⟨le_refl 0, C2_incidence_bounded_by_stall cfg0 (le_refl 0)⟩

/-! ## Loop runs that reach the iteration cap -/

namespace TakeOffManeuver

/-- When the end altitude is not reached during the first `N` steps and the
iteration cap is `N + 1`, the loop performs exactly `N` steps (the cap counts
recorded states, the initial one included). -/
theorem loop_reaches_cap (c : Config) (N : ℕ) (hN : c.nb_max_iterations = N + 1)
    (halt : ∀ k, k < N →
      ((step c)^[k] (init_evolution_variables c)).altitude_list.headI
        < c.end_take_off_altitude) :
    evolutionState c = (step c)^[N] (init_evolution_variables c) := by
  have hlen : ∀ k, ((step c)^[k] (init_evolution_variables c)).phase_list.length
      = k + 1 := by
    intro k
    rw [phase_list_length_iterate]
    simp [init_evolution_variables, Nat.add_comm]
  have aux : ∀ m j, j + m = N →
      loop c (m + 1) ((step c)^[j] (init_evolution_variables c))
        = (step c)^[N] (init_evolution_variables c) := by
    intro m
    induction m with
    | zero =>
      intro j hj
      rw [Nat.add_zero] at hj
      subst hj
      rw [loop, if_neg]
      intro hcond
      rw [hlen, hN] at hcond
      omega
    | succ m ih =>
      intro j hj
      have hs : step c ((step c)^[j] (init_evolution_variables c))
          = (step c)^[j + 1] (init_evolution_variables c) :=
        (Function.iterate_succ_apply' (step c) j _).symm
      rw [loop, if_pos]
      · rw [hs]
        exact ih (j + 1) (by omega)
      · refine ⟨halt j (by omega), ?_⟩
        rw [hlen, hN]
        omega
  have := aux N 0 (by omega)
  rw [evolutionState, hN]
  simpa using this

end TakeOffManeuver

namespace LandingManeuver

/-- When the phase is not `stopped` during the first `N` steps and the
iteration cap is `N + 1`, the landing loop performs exactly `N` steps. -/
theorem landing_loop_reaches_cap (c : Config) (N : ℕ) (hN : c.nb_max_iterations = N + 1)
    (hph : ∀ k, k < N →
      ((step c)^[k] (init_evolution_variables c)).phase_list.headI
        ≠ LandingPhase.stopped) :
    evolutionState c = (step c)^[N] (init_evolution_variables c) := by
  have hstep : ∀ s : State, (step c s).phase_list.length
      = s.phase_list.length + 1 := by
    intro s
    rw [landing_phase_list_step]
    rfl
  have hlen : ∀ k, ((step c)^[k] (init_evolution_variables c)).phase_list.length
      = k + 1 := by
    intro k
    induction k with
    | zero => rfl
    | succ k ih => rw [Function.iterate_succ_apply', hstep, ih]
  have aux : ∀ m j, j + m = N →
      loop c (m + 1) ((step c)^[j] (init_evolution_variables c))
        = (step c)^[N] (init_evolution_variables c) := by
    intro m
    induction m with
    | zero =>
      intro j hj
      rw [Nat.add_zero] at hj
      subst hj
      rw [loop, if_neg]
      intro hcond
      rw [hlen, hN] at hcond
      omega
    | succ m ih =>
      intro j hj
      have hs : step c ((step c)^[j] (init_evolution_variables c))
          = (step c)^[j + 1] (init_evolution_variables c) :=
        (Function.iterate_succ_apply' (step c) j _).symm
      rw [loop, if_pos]
      · rw [hs]
        exact ih (j + 1) (by omega)
      · refine ⟨hph j (by omega), ?_⟩
        rw [hlen, hN]
        omega
  have := aux N 0 (by omega)
  rw [evolutionState, hN]
  simpa using this

end LandingManeuver

/-! ## A take-off run whose phase regresses and whose flight timer is
overwritten

With a unit-mass, unit-weight plane whose lift grows with the square of the
velocity, a strongly varying thrust schedule drives the run through
`initial_acceleration → rotation → flight → initial_acceleration → rotation →
flight`: the phase regresses after lift-off, and `flight_start_time` is set on
both `rotation → flight` edges.  All angles stay at 0 (the stall ceiling is
0), so every step evaluates exactly. -/

/-- Aircraft provider for the regression run: lift `v ^ 2 / 144` equals the
weight exactly at `v = 12`. -/
def planeCex : Plane :=
  { m := 1
    P := 1
    S := 1
    alpha_stall := 0
    C_D_0 := 0
    C_L := fun _ => 0
    C_D := fun _ => 0
    compute_thrust := fun _ => 1
    compute_lift := fun v _ _ => v ^ 2 / 144
    compute_drag := fun _ _ _ => 0
    atmosphere_model := { compute_density_from_altitude := fun _ => 1 } }

/-- Thrust schedule driving the regression run: full thrust, cut, strong
reverse, full thrust again, cut. -/
def cexThrustSchedule : ℝ → ℝ := fun t =>
  if t ≤ 1 then 12
  else if t ≤ 2 then 0
  else if t ≤ 3 then -11
  else if t ≤ 4 then 11
  else 0

/-- Take-off configuration of the regression run. -/
def cexCfg : TakeOffManeuver.Config :=
  { plane_model := planeCex
    thrust_evolution_function := cexThrustSchedule
    ground_rotation_speed := 1
    air_rotation_speed := 1
    rotation_sequence_trigger_speed := 1
    ground_friction_coefficient := 0
    max_ground_angle_of_incidence := 0
    ground_altitude := 0
    end_take_off_altitude := 30
    dt := 1
    nb_max_iterations := 7 }

theorem cexHsucc (n : ℕ) (h : TakeOffManeuver.Heads)
    (hn : ((TakeOffManeuver.step cexCfg)^[n]
      (TakeOffManeuver.init_evolution_variables cexCfg)).heads = h) :
    ((TakeOffManeuver.step cexCfg)^[n + 1]
        (TakeOffManeuver.init_evolution_variables cexCfg)).heads
      = TakeOffManeuver.stepHeads cexCfg h := by
  rw [Function.iterate_succ_apply', TakeOffManeuver.heads_step, hn]

theorem cexH0 :
    (TakeOffManeuver.init_evolution_variables cexCfg).heads
      = ⟨0, 0, 0, 0, 0, 0, 1, 12, Phase.initial_acceleration, none, none⟩ := by
  norm_num [TakeOffManeuver.init_evolution_variables, TakeOffManeuver.State.heads,
    cexCfg, planeCex, cexThrustSchedule]

theorem cexH1 :
    ((TakeOffManeuver.step cexCfg)^[1]
        (TakeOffManeuver.init_evolution_variables cexCfg)).heads
      = ⟨1, 12, 0, 0, 0, 0, 1, 12, Phase.initial_acceleration, none, none⟩ := by
  rw [cexHsucc 0 _ cexH0]
  norm_num [TakeOffManeuver.stepHeads, TakeOffManeuver.determinePhase,
    cexCfg, planeCex, cexThrustSchedule, Real.cos_zero, Real.sin_zero,
    Phase.ia_ne_rot, Phase.ia_ne_fl, Phase.rot_ne_ia, Phase.rot_ne_fl,
    Phase.fl_ne_ia, Phase.fl_ne_rot]

theorem cexH2 :
    ((TakeOffManeuver.step cexCfg)^[2]
        (TakeOffManeuver.init_evolution_variables cexCfg)).heads
      = ⟨2, 12, 0, 0, 0, 0, 0, 0, Phase.rotation, some 2, none⟩ := by
  rw [cexHsucc 1 _ cexH1]
  norm_num [TakeOffManeuver.stepHeads, TakeOffManeuver.determinePhase,
    cexCfg, planeCex, cexThrustSchedule, Real.cos_zero, Real.sin_zero,
    Phase.ia_ne_rot, Phase.ia_ne_fl, Phase.rot_ne_ia, Phase.rot_ne_fl,
    Phase.fl_ne_ia, Phase.fl_ne_rot]

theorem cexH3 :
    ((TakeOffManeuver.step cexCfg)^[3]
        (TakeOffManeuver.init_evolution_variables cexCfg)).heads
      = ⟨3, 1, 0, 0, 0, 0, 0, -11, Phase.flight, some 2, some 3⟩ := by
  rw [cexHsucc 2 _ cexH2]
  norm_num [TakeOffManeuver.stepHeads, TakeOffManeuver.determinePhase,
    cexCfg, planeCex, cexThrustSchedule, Real.cos_zero, Real.sin_zero,
    Phase.ia_ne_rot, Phase.ia_ne_fl, Phase.rot_ne_ia, Phase.rot_ne_fl,
    Phase.fl_ne_ia, Phase.fl_ne_rot]

theorem cexH4 :
    ((TakeOffManeuver.step cexCfg)^[4]
        (TakeOffManeuver.init_evolution_variables cexCfg)).heads
      = ⟨4, 12, 0, 0, 0, 0, 143 / 144, 11, Phase.initial_acceleration,
          some 2, some 3⟩ := by
  rw [cexHsucc 3 _ cexH3]
  norm_num [TakeOffManeuver.stepHeads, TakeOffManeuver.determinePhase,
    cexCfg, planeCex, cexThrustSchedule, Real.cos_zero, Real.sin_zero,
    Phase.ia_ne_rot, Phase.ia_ne_fl, Phase.rot_ne_ia, Phase.rot_ne_fl,
    Phase.fl_ne_ia, Phase.fl_ne_rot]

theorem cexH5 :
    ((TakeOffManeuver.step cexCfg)^[5]
        (TakeOffManeuver.init_evolution_variables cexCfg)).heads
      = ⟨5, 12, 0, 0, 0, 0, 0, 0, Phase.rotation, some 5, some 3⟩ := by
  rw [cexHsucc 4 _ cexH4]
  norm_num [TakeOffManeuver.stepHeads, TakeOffManeuver.determinePhase,
    cexCfg, planeCex, cexThrustSchedule, Real.cos_zero, Real.sin_zero,
    Phase.ia_ne_rot, Phase.ia_ne_fl, Phase.rot_ne_ia, Phase.rot_ne_fl,
    Phase.fl_ne_ia, Phase.fl_ne_rot]

theorem cexH6 :
    ((TakeOffManeuver.step cexCfg)^[6]
        (TakeOffManeuver.init_evolution_variables cexCfg)).heads
      = ⟨6, 12, 0, 0, 0, 0, 0, 0, Phase.flight, some 5, some 6⟩ := by
  rw [cexHsucc 5 _ cexH5]
  norm_num [TakeOffManeuver.stepHeads, TakeOffManeuver.determinePhase,
    cexCfg, planeCex, cexThrustSchedule, Real.cos_zero, Real.sin_zero,
    Phase.ia_ne_rot, Phase.ia_ne_fl, Phase.rot_ne_ia, Phase.rot_ne_fl,
    Phase.fl_ne_ia, Phase.fl_ne_rot]

/-- The regression run reaches the iteration cap after six steps. -/
theorem cex_run :
    TakeOffManeuver.evolutionState cexCfg
      = (TakeOffManeuver.step cexCfg)^[6]
          (TakeOffManeuver.init_evolution_variables cexCfg) := by
  apply TakeOffManeuver.loop_reaches_cap cexCfg 6 rfl
  intro k hk
  interval_cases k
  · rw [show ((TakeOffManeuver.step cexCfg)^[0]
          (TakeOffManeuver.init_evolution_variables cexCfg)).altitude_list.headI
        = (0:ℝ) from congrArg TakeOffManeuver.Heads.altitude cexH0]
    norm_num [cexCfg]
  · rw [show ((TakeOffManeuver.step cexCfg)^[1]
          (TakeOffManeuver.init_evolution_variables cexCfg)).altitude_list.headI
        = (0:ℝ) from congrArg TakeOffManeuver.Heads.altitude cexH1]
    norm_num [cexCfg]
  · rw [show ((TakeOffManeuver.step cexCfg)^[2]
          (TakeOffManeuver.init_evolution_variables cexCfg)).altitude_list.headI
        = (0:ℝ) from congrArg TakeOffManeuver.Heads.altitude cexH2]
    norm_num [cexCfg]
  · rw [show ((TakeOffManeuver.step cexCfg)^[3]
          (TakeOffManeuver.init_evolution_variables cexCfg)).altitude_list.headI
        = (0:ℝ) from congrArg TakeOffManeuver.Heads.altitude cexH3]
    norm_num [cexCfg]
  · rw [show ((TakeOffManeuver.step cexCfg)^[4]
          (TakeOffManeuver.init_evolution_variables cexCfg)).altitude_list.headI
        = (0:ℝ) from congrArg TakeOffManeuver.Heads.altitude cexH4]
    norm_num [cexCfg]
  · rw [show ((TakeOffManeuver.step cexCfg)^[5]
          (TakeOffManeuver.init_evolution_variables cexCfg)).altitude_list.headI
        = (0:ℝ) from congrArg TakeOffManeuver.Heads.altitude cexH5]
    norm_num [cexCfg]

/-- The complete recorded phase sequence of the regression run (stored
newest-first): chronologically `initial_acceleration, initial_acceleration,
rotation, flight, initial_acceleration, rotation, flight`. -/
theorem cexPhaseList :
    ((TakeOffManeuver.step cexCfg)^[6]
        (TakeOffManeuver.init_evolution_variables cexCfg)).phase_list
      = [Phase.flight, Phase.rotation, Phase.initial_acceleration,
         Phase.flight, Phase.rotation, Phase.initial_acceleration,
         Phase.initial_acceleration] := by
  have h : ∀ (k : ℕ) (l : List Phase) (p : Phase),
      ((TakeOffManeuver.step cexCfg)^[k]
        (TakeOffManeuver.init_evolution_variables cexCfg)).phase_list = l →
      ((TakeOffManeuver.step cexCfg)^[k + 1]
        (TakeOffManeuver.init_evolution_variables cexCfg)).heads.phase = p →
      ((TakeOffManeuver.step cexCfg)^[k + 1]
        (TakeOffManeuver.init_evolution_variables cexCfg)).phase_list = p :: l := by
    intro k l p hl hp
    rw [Function.iterate_succ_apply'] at hp ⊢
    rw [TakeOffManeuver.phase_list_step, hl]
    exact congrArg (fun q => q :: l) hp
  have q1 : ((TakeOffManeuver.step cexCfg)^[1]
      (TakeOffManeuver.init_evolution_variables cexCfg)).phase_list
      = [Phase.initial_acceleration, Phase.initial_acceleration] :=
    h 0 _ _ rfl (congrArg TakeOffManeuver.Heads.phase cexH1)
  have q2 : ((TakeOffManeuver.step cexCfg)^[2]
      (TakeOffManeuver.init_evolution_variables cexCfg)).phase_list
      = [Phase.rotation, Phase.initial_acceleration,
         Phase.initial_acceleration] :=
    h 1 _ _ q1 (congrArg TakeOffManeuver.Heads.phase cexH2)
  have q3 : ((TakeOffManeuver.step cexCfg)^[3]
      (TakeOffManeuver.init_evolution_variables cexCfg)).phase_list
      = [Phase.flight, Phase.rotation, Phase.initial_acceleration,
         Phase.initial_acceleration] :=
    h 2 _ _ q2 (congrArg TakeOffManeuver.Heads.phase cexH3)
  have q4 : ((TakeOffManeuver.step cexCfg)^[4]
      (TakeOffManeuver.init_evolution_variables cexCfg)).phase_list
      = [Phase.initial_acceleration, Phase.flight, Phase.rotation,
         Phase.initial_acceleration, Phase.initial_acceleration] :=
    h 3 _ _ q3 (congrArg TakeOffManeuver.Heads.phase cexH4)
  have q5 : ((TakeOffManeuver.step cexCfg)^[5]
      (TakeOffManeuver.init_evolution_variables cexCfg)).phase_list
      = [Phase.rotation, Phase.initial_acceleration, Phase.flight,
         Phase.rotation, Phase.initial_acceleration,
         Phase.initial_acceleration] :=
    h 4 _ _ q4 (congrArg TakeOffManeuver.Heads.phase cexH5)
  exact h 5 _ _ q5 (congrArg TakeOffManeuver.Heads.phase cexH6)

/-! ## Case analysis of the take-off phase classifier -/

namespace TakeOffManeuver

theorem determinePhase_eq_ia (c : Config) (v g : ℝ)
    (h : determinePhase c v g = Phase.initial_acceleration) :
    ¬ v > c.rotation_sequence_trigger_speed := by
  rw [determinePhase] at h
  split_ifs at h with h1 h2
  exact h2

theorem determinePhase_eq_rot (c : Config) (v g : ℝ)
    (h : determinePhase c v g = Phase.rotation) :
    v > c.rotation_sequence_trigger_speed ∧ ¬ g ≤ 0 := by
  rw [determinePhase] at h
  split_ifs at h with h1 h2
  exact ⟨h2, fun hg => h1 ⟨h2, hg⟩⟩

theorem determinePhase_eq_fl (c : Config) (v g : ℝ)
    (h : determinePhase c v g = Phase.flight) :
    v > c.rotation_sequence_trigger_speed ∧ g ≤ 0 := by
  rw [determinePhase] at h
  split_ifs at h with h1 h2
  exact h1

theorem phase_list_headI_step (c : Config) (s : State) :
    (step c s).phase_list.headI =
      determinePhase c s.velocity_list.headI s.ground_reaction_force_list.headI :=
  rfl

theorem grf_headI_step_flight (c : Config) (s : State)
    (h : determinePhase c s.velocity_list.headI s.ground_reaction_force_list.headI
      = Phase.flight) :
    (step c s).ground_reaction_force_list.headI = 0 := by
  simp only [step, List.headI_cons]
  rw [if_pos h]

/-- The phase-monotonicity invariant: the stored phase list is non-empty and
non-increasing in rank (newest first), a `rotation` head implies the velocity
is above the trigger speed, and a `flight` head implies additionally that the
ground reaction force is non-positive. -/
def PhaseMono (c : Config) (s : State) : Prop :=
  s.phase_list ≠ [] ∧
  List.Chain' (fun a b => phaseRank b ≤ phaseRank a) s.phase_list ∧
  (s.phase_list.headI = Phase.rotation →
    c.rotation_sequence_trigger_speed < s.velocity_list.headI) ∧
  (s.phase_list.headI = Phase.flight →
    c.rotation_sequence_trigger_speed < s.velocity_list.headI ∧
      s.ground_reaction_force_list.headI ≤ 0)

theorem phaseMono_init (c : Config) : PhaseMono c (init_evolution_variables c) := by
  refine ⟨by simp [init_evolution_variables], by simp [init_evolution_variables],
    ?_, ?_⟩ <;>
  · intro h
    simp [init_evolution_variables] at h

theorem phaseMono_iterate (c : Config)
    (H : ∀ n : ℕ,
      c.rotation_sequence_trigger_speed
          < ((step c)^[n] (init_evolution_variables c)).velocity_list.headI →
      c.rotation_sequence_trigger_speed
          < ((step c)^[n + 1] (init_evolution_variables c)).velocity_list.headI) :
    ∀ n : ℕ, PhaseMono c ((step c)^[n] (init_evolution_variables c)) := by
  intro n
  induction n with
  | zero => exact phaseMono_init c
  | succ n ih =>
    obtain ⟨hne, hchain, hrot, hfl⟩ := ih
    obtain ⟨a, t, hat⟩ :=
      List.exists_cons_of_ne_nil hne
    have hSn1 : (step c)^[n + 1] (init_evolution_variables c)
        = step c ((step c)^[n] (init_evolution_variables c)) :=
      Function.iterate_succ_apply' _ _ _
    have hvel : c.rotation_sequence_trigger_speed
          < ((step c)^[n] (init_evolution_variables c)).velocity_list.headI →
        c.rotation_sequence_trigger_speed
          < (step c ((step c)^[n] (init_evolution_variables c))).velocity_list.headI := by
      rw [← hSn1]
      exact H n
    rw [hSn1]
    rw [hat] at hchain
    have hheadI : ((step c)^[n] (init_evolution_variables c)).phase_list.headI = a := by
      rw [hat]
      rfl
    rw [hheadI] at hrot hfl
    rcases hph : determinePhase c
        ((step c)^[n] (init_evolution_variables c)).velocity_list.headI
        ((step c)^[n] (init_evolution_variables c)).ground_reaction_force_list.headI
      with _ | _ | _
    -- current phase is initial_acceleration
    · have hnv := determinePhase_eq_ia c _ _ hph
      have ha : a = Phase.initial_acceleration := by
        cases a with
        | initial_acceleration => rfl
        | rotation => exact absurd (hrot rfl) (by simpa using hnv)
        | flight => exact absurd (hfl rfl).1 (by simpa using hnv)
      refine ⟨by simp [phase_list_step], ?_, ?_, ?_⟩
      · rw [phase_list_step, hph, hat, List.chain'_cons, ha]
        exact ⟨le_refl 0, by rw [← ha]; exact hchain⟩
      · intro hcontra
        rw [phase_list_headI_step, hph] at hcontra
        exact absurd hcontra Phase.ia_ne_rot
      · intro hcontra
        rw [phase_list_headI_step, hph] at hcontra
        exact absurd hcontra Phase.ia_ne_fl
    -- current phase is rotation
    · have hvr := determinePhase_eq_rot c _ _ hph
      have ha : a ≠ Phase.flight := by
        intro haf
        rw [haf] at hfl
        exact hvr.2 (hfl rfl).2
      refine ⟨by simp [phase_list_step], ?_, ?_, ?_⟩
      · rw [phase_list_step, hph, hat, List.chain'_cons]
        refine ⟨?_, hchain⟩
        cases a with
        | initial_acceleration => simp [phaseRank]
        | rotation => simp [phaseRank]
        | flight => exact absurd rfl ha
      · intro _
        exact hvel hvr.1
      · intro hcontra
        rw [phase_list_headI_step, hph] at hcontra
        exact absurd hcontra Phase.rot_ne_fl
    -- current phase is flight
    · have hvf := determinePhase_eq_fl c _ _ hph
      refine ⟨by simp [phase_list_step], ?_, ?_, ?_⟩
      · rw [phase_list_step, hph, hat, List.chain'_cons]
        refine ⟨?_, hchain⟩
        cases a <;> simp [phaseRank]
      · intro hcontra
        rw [phase_list_headI_step, hph] at hcontra
        exact absurd hcontra Phase.fl_ne_rot
      · intro _
        exact ⟨hvel hvf.1, le_of_eq (grf_headI_step_flight c _ hph)⟩

end TakeOffManeuver

/-- **C3 (counterexample).** The recorded phase sequence of
`TakeOffManeuver.compute_evolution` is not always non-decreasing: with the
concrete configuration `cexCfg` (a strongly varying thrust schedule slows the
plane below the rotation trigger speed after it has rotated and lifted off),
the chronological phase sequence is `initial_acceleration,
initial_acceleration, rotation, flight, initial_acceleration, rotation,
flight`, which regresses from `flight` back to `initial_acceleration`. -/
theorem C3_phase_monotone_counterexample :
    ¬ List.Chain' (fun a b => phaseRank a ≤ phaseRank b)
      (TakeOffManeuver.evolutionState cexCfg).phase_list.reverse := by
  rw [cex_run, cexPhaseList]
  simp [List.chain'_cons, phaseRank]

/-- **C3 (amended).** In `TakeOffManeuver.compute_evolution`, for every
configuration whose run never lets the recorded velocity fall back to the
trigger speed once it has exceeded it (a condition an arbitrary thrust
schedule can violate, see the counterexample), the recorded phase sequence is
non-decreasing in the order
`initial_acceleration < rotation < flight` — after every step and after the
run completes.  The stored lists are newest-first, so the chronological
sequence is the reverse. -/
theorem C3_phase_monotone_amended (c : TakeOffManeuver.Config)
    (H : ∀ n : ℕ,
      c.rotation_sequence_trigger_speed
          < ((TakeOffManeuver.step c)^[n]
              (TakeOffManeuver.init_evolution_variables c)).velocity_list.headI →
      c.rotation_sequence_trigger_speed
          < ((TakeOffManeuver.step c)^[n + 1]
              (TakeOffManeuver.init_evolution_variables c)).velocity_list.headI) :
    (∀ n : ℕ, List.Chain' (fun a b => phaseRank a ≤ phaseRank b)
        ((TakeOffManeuver.step c)^[n]
          (TakeOffManeuver.init_evolution_variables c)).phase_list.reverse) ∧
    List.Chain' (fun a b => phaseRank a ≤ phaseRank b)
      (TakeOffManeuver.evolutionState c).phase_list.reverse := by
  have main : ∀ n : ℕ, List.Chain' (fun a b => phaseRank b ≤ phaseRank a)
      ((TakeOffManeuver.step c)^[n]
        (TakeOffManeuver.init_evolution_variables c)).phase_list :=
    fun n => (TakeOffManeuver.phaseMono_iterate c H n).2.1
  constructor
  · intro n
    rw [List.chain'_reverse]
    exact main n
  · obtain ⟨k, hk⟩ := TakeOffManeuver.evolutionState_eq_iterate c
    rw [hk, List.chain'_reverse]
    exact main k

/-- Witness for C3 (amended) at `cfg0`: the thrust schedule is identically
zero, the velocity stays at 0, so the velocity-persistence hypothesis holds
vacuously. -/
theorem C3_phase_monotone_amended_witness :
    (∀ n : ℕ,
      cfg0.rotation_sequence_trigger_speed
          < ((TakeOffManeuver.step cfg0)^[n]
              (TakeOffManeuver.init_evolution_variables cfg0)).velocity_list.headI →
      cfg0.rotation_sequence_trigger_speed
          < ((TakeOffManeuver.step cfg0)^[n + 1]
              (TakeOffManeuver.init_evolution_variables cfg0)).velocity_list.headI) ∧
    ((∀ n : ℕ, List.Chain' (fun a b => phaseRank a ≤ phaseRank b)
        ((TakeOffManeuver.step cfg0)^[n]
          (TakeOffManeuver.init_evolution_variables cfg0)).phase_list.reverse) ∧
      List.Chain' (fun a b => phaseRank a ≤ phaseRank b)
        (TakeOffManeuver.evolutionState cfg0).phase_list.reverse) := by
  have hH : ∀ n : ℕ,
      cfg0.rotation_sequence_trigger_speed
          < ((TakeOffManeuver.step cfg0)^[n]
              (TakeOffManeuver.init_evolution_variables cfg0)).velocity_list.headI →
      cfg0.rotation_sequence_trigger_speed
          < ((TakeOffManeuver.step cfg0)^[n + 1]
              (TakeOffManeuver.init_evolution_variables cfg0)).velocity_list.headI := by
    intro n h
    rw [cfg0_velocity_headI n] at h
    exact absurd h (by norm_num [cfg0])
  exact ⟨hH, C3_phase_monotone_amended cfg0 hH⟩

/-! ## The flight timer (claim C4) -/

namespace TakeOffManeuver

/-- How one loop iteration updates `flight_start_time`: it is set to the new
current time exactly when the newly classified phase is `flight` and the
previous recorded phase is `rotation`, and kept unchanged otherwise. -/
theorem fst_step (c : Config) (s : State) :
    (step c s).flight_start_time =
      if determinePhase c s.velocity_list.headI s.ground_reaction_force_list.headI
            = Phase.flight ∧ s.phase_list.headI = Phase.rotation
      then some (s.time_list.headI + c.dt)
      else s.flight_start_time := rfl

/-- `flight_start_time` is `none` after `n` steps exactly when no
`rotation → flight` edge occurred during those steps. -/
theorem fst_none_iff (c : Config) (n : ℕ) :
    ((step c)^[n] (init_evolution_variables c)).flight_start_time = none ↔
      ∀ k, k < n →
        ¬ (determinePhase c
              ((step c)^[k] (init_evolution_variables c)).velocity_list.headI
              ((step c)^[k] (init_evolution_variables c)).ground_reaction_force_list.headI
            = Phase.flight ∧
          ((step c)^[k] (init_evolution_variables c)).phase_list.headI
            = Phase.rotation) := by
  induction n with
  | zero =>
    constructor
    · intro _ k hk
      omega
    · intro _
      rfl
  | succ n ih =>
    rw [Function.iterate_succ_apply', fst_step]
    by_cases hc : determinePhase c
          ((step c)^[n] (init_evolution_variables c)).velocity_list.headI
          ((step c)^[n] (init_evolution_variables c)).ground_reaction_force_list.headI
        = Phase.flight ∧
        ((step c)^[n] (init_evolution_variables c)).phase_list.headI = Phase.rotation
    · rw [if_pos hc]
      constructor
      · intro h
        exact absurd h (Option.some_ne_none _)
      · intro hall
        exact absurd hc (hall n (Nat.lt_succ_self n))
    · rw [if_neg hc]
      constructor
      · intro h k hk
        rcases Nat.lt_succ_iff_lt_or_eq.mp hk with h' | rfl
        · exact ih.mp h k h'
        · exact hc
      · intro hall
        exact ih.mpr fun k hk => hall k (hk.trans (Nat.lt_succ_self n))

end TakeOffManeuver

/-- **C4 (amended).** In `TakeOffManeuver.compute_evolution`,
`flight_start_time` is `none` at initialization and stays `none` until the
first step whose previous recorded phase is `rotation` and whose newly
classified phase is `flight`; on every such `rotation → flight` edge (and
never on a direct `initial_acceleration → flight` edge) it is set to the
current time, and it is unchanged on all other steps.  Consequently it holds
the time of the most recent `rotation → flight` edge; it can be overwritten
when the run regresses out of `flight` and a second such edge occurs (see the
counterexample). -/
theorem C4_flight_start_time_amended (c : TakeOffManeuver.Config) (n : ℕ) :
    (TakeOffManeuver.init_evolution_variables c).flight_start_time = none ∧
    (((TakeOffManeuver.step c)^[n]
        (TakeOffManeuver.init_evolution_variables c)).flight_start_time = none ↔
      ∀ k, k < n →
        ¬ (TakeOffManeuver.determinePhase c
              ((TakeOffManeuver.step c)^[k]
                (TakeOffManeuver.init_evolution_variables c)).velocity_list.headI
              ((TakeOffManeuver.step c)^[k]
                (TakeOffManeuver.init_evolution_variables c)).ground_reaction_force_list.headI
            = Phase.flight ∧
          ((TakeOffManeuver.step c)^[k]
            (TakeOffManeuver.init_evolution_variables c)).phase_list.headI
            = Phase.rotation)) ∧
    ((TakeOffManeuver.step c)^[n + 1]
        (TakeOffManeuver.init_evolution_variables c)).flight_start_time =
      (if TakeOffManeuver.determinePhase c
            ((TakeOffManeuver.step c)^[n]
              (TakeOffManeuver.init_evolution_variables c)).velocity_list.headI
            ((TakeOffManeuver.step c)^[n]
              (TakeOffManeuver.init_evolution_variables c)).ground_reaction_force_list.headI
          = Phase.flight ∧
        ((TakeOffManeuver.step c)^[n]
          (TakeOffManeuver.init_evolution_variables c)).phase_list.headI
          = Phase.rotation
      then some (((TakeOffManeuver.step c)^[n]
          (TakeOffManeuver.init_evolution_variables c)).time_list.headI + c.dt)
      else ((TakeOffManeuver.step c)^[n]
          (TakeOffManeuver.init_evolution_variables c)).flight_start_time) := by
  refine ⟨rfl, TakeOffManeuver.fst_none_iff c n, ?_⟩
  rw [Function.iterate_succ_apply']
  exact TakeOffManeuver.fst_step c _

/-- **C4 (counterexample).** `flight_start_time` is not set-once: in the
regression run `cexCfg`, it is `some 3` after the first `rotation → flight`
edge (step 3) and is overwritten to `some 6` on the second
`rotation → flight` edge (step 6), which is the value after
`compute_evolution()` returns. -/
theorem C4_flight_start_time_counterexample :
    ((TakeOffManeuver.step cexCfg)^[3]
        (TakeOffManeuver.init_evolution_variables cexCfg)).flight_start_time
      = some 3 ∧
    (TakeOffManeuver.evolutionState cexCfg).flight_start_time = some 6 ∧
    (3 : ℝ) ≠ 6 := by
  refine ⟨congrArg TakeOffManeuver.Heads.flight_start_time cexH3, ?_, by norm_num⟩
  rw [cex_run]
  exact congrArg TakeOffManeuver.Heads.flight_start_time cexH6

/-- **C5.** In `TakeOffManeuver.compute_evolution`, the pitch-rate division
`-vertical_force / (m * velocity)` never divides by zero: whenever the newly
classified phase is `flight`, the previous recorded velocity used as divisor
is strictly positive (the classifier requires it to exceed
`rotation_sequence_trigger_speed`), so under the preconditions that the
trigger speed is strictly positive and the plane mass is nonzero, the
denominator `m * velocity` is nonzero at every step. -/
theorem C5_pitch_rate_divisor_nonzero (c : TakeOffManeuver.Config)
    (htrig : 0 < c.rotation_sequence_trigger_speed)
    (hm : c.plane_model.m ≠ 0) (n : ℕ)
    (hfl : TakeOffManeuver.determinePhase c
        ((TakeOffManeuver.step c)^[n]
          (TakeOffManeuver.init_evolution_variables c)).velocity_list.headI
        ((TakeOffManeuver.step c)^[n]
          (TakeOffManeuver.init_evolution_variables c)).ground_reaction_force_list.headI
      = Phase.flight) :
    0 < ((TakeOffManeuver.step c)^[n]
        (TakeOffManeuver.init_evolution_variables c)).velocity_list.headI ∧
    c.plane_model.m * ((TakeOffManeuver.step c)^[n]
        (TakeOffManeuver.init_evolution_variables c)).velocity_list.headI ≠ 0 := by
  have h := TakeOffManeuver.determinePhase_eq_fl c _ _ hfl
  have hv : 0 < ((TakeOffManeuver.step c)^[n]
      (TakeOffManeuver.init_evolution_variables c)).velocity_list.headI :=
    htrig.trans h.1
  exact ⟨hv, mul_ne_zero hm (ne_of_gt hv)⟩

/-- Witness for C5 at the configuration `cexCfg`, whose step 3 is classified
as `flight` (velocity 12 above the trigger speed 1, ground reaction force 0). -/
theorem C5_pitch_rate_divisor_nonzero_witness :
    0 < cexCfg.rotation_sequence_trigger_speed ∧
    cexCfg.plane_model.m ≠ 0 ∧
    TakeOffManeuver.determinePhase cexCfg
        ((TakeOffManeuver.step cexCfg)^[2]
          (TakeOffManeuver.init_evolution_variables cexCfg)).velocity_list.headI
        ((TakeOffManeuver.step cexCfg)^[2]
          (TakeOffManeuver.init_evolution_variables cexCfg)).ground_reaction_force_list.headI
      = Phase.flight ∧
    (0 < ((TakeOffManeuver.step cexCfg)^[2]
        (TakeOffManeuver.init_evolution_variables cexCfg)).velocity_list.headI ∧
      cexCfg.plane_model.m * ((TakeOffManeuver.step cexCfg)^[2]
        (TakeOffManeuver.init_evolution_variables cexCfg)).velocity_list.headI ≠ 0) := by
  have h1 : 0 < cexCfg.rotation_sequence_trigger_speed := by norm_num [cexCfg]
  have h2 : cexCfg.plane_model.m ≠ 0 := by norm_num [cexCfg, planeCex]
  have h3 : TakeOffManeuver.determinePhase cexCfg
      ((TakeOffManeuver.step cexCfg)^[2]
        (TakeOffManeuver.init_evolution_variables cexCfg)).velocity_list.headI
      ((TakeOffManeuver.step cexCfg)^[2]
        (TakeOffManeuver.init_evolution_variables cexCfg)).ground_reaction_force_list.headI
      = Phase.flight := by
    rw [show ((TakeOffManeuver.step cexCfg)^[2]
          (TakeOffManeuver.init_evolution_variables cexCfg)).velocity_list.headI
        = (12:ℝ) from congrArg TakeOffManeuver.Heads.velocity cexH2,
      show ((TakeOffManeuver.step cexCfg)^[2]
          (TakeOffManeuver.init_evolution_variables cexCfg)).ground_reaction_force_list.headI
        = (0:ℝ) from congrArg TakeOffManeuver.Heads.ground_reaction_force cexH2,
      TakeOffManeuver.determinePhase]
    norm_num [cexCfg]
  exact ⟨h1, h2, h3, C5_pitch_rate_divisor_nonzero cexCfg h1 h2 2 h3⟩

/-! ## Claim C6: a cap of one iteration -/

/-- `cfg0` with the iteration cap set to 1. -/
def cfg0cap : TakeOffManeuver.Config :=
  { cfg0 with nb_max_iterations := 1 }

/-- **C6 (counterexample).** With the iteration cap `nb_max_iterations` set to
1 and the take-off termination condition not met at the initial state
(altitude 0 below the end altitude 30), `compute_evolution()` records exactly
1 state, not 2: the loop guard `len(phase_list) < nb_max_iterations` already
fails for the initial singleton lists. -/
theorem C6_cap_one_counterexample :
    cfg0cap.nb_max_iterations = 1 ∧
    (TakeOffManeuver.init_evolution_variables cfg0cap).altitude_list.headI
      < cfg0cap.end_take_off_altitude ∧
    (TakeOffManeuver.evolutionState cfg0cap).phase_list.length = 1 ∧
    (TakeOffManeuver.evolutionState cfg0cap).phase_list.length ≠ 2 := by
  have hrun : TakeOffManeuver.evolutionState cfg0cap
      = TakeOffManeuver.init_evolution_variables cfg0cap :=
    TakeOffManeuver.loop_reaches_cap cfg0cap 0 rfl (by intro k hk; omega)
  refine ⟨rfl, ?_, ?_, ?_⟩
  · norm_num [TakeOffManeuver.init_evolution_variables, cfg0cap, cfg0]
  · rw [hrun]
    rfl
  · rw [hrun]
    simp [TakeOffManeuver.init_evolution_variables]

/-- **C6 (amended).** For any maneuver whose natural termination condition is
not met at the initial state, running `compute_evolution()` with
`nb_max_iterations = 1` produces trajectory sequences containing exactly 1
recorded state — the initial state alone, with no integration step — because
the cap bounds the total number of recorded states, the initial one
included. -/
theorem C6_cap_one_single_state_amended (ct : TakeOffManeuver.Config)
    (cl : LandingManeuver.Config)
    (h1 : ct.nb_max_iterations = 1)
    (h2 : (TakeOffManeuver.init_evolution_variables ct).altitude_list.headI
      < ct.end_take_off_altitude)
    (h3 : cl.nb_max_iterations = 1)
    (h4 : (LandingManeuver.init_evolution_variables cl).phase_list.headI
      ≠ LandingPhase.stopped) :
    (TakeOffManeuver.evolutionState ct).phase_list.length = 1 ∧
    (LandingManeuver.evolutionState cl).phase_list.length = 1 := by
  constructor
  · rw [TakeOffManeuver.loop_reaches_cap ct 0 h1 (by intro k hk; omega)]
    rfl
  · rw [LandingManeuver.landing_loop_reaches_cap cl 0 h3 (by intro k hk; omega)]
    rfl

/-- Witness for C6 (amended) at the concrete configurations `cfg0cap` and
`lcfg0`, whose caps are 1 and whose termination conditions are not met
initially. -/
theorem C6_cap_one_single_state_amended_witness :
    cfg0cap.nb_max_iterations = 1 ∧
    (TakeOffManeuver.init_evolution_variables cfg0cap).altitude_list.headI
      < cfg0cap.end_take_off_altitude ∧
    lcfg0.nb_max_iterations = 1 ∧
    (LandingManeuver.init_evolution_variables lcfg0).phase_list.headI
      ≠ LandingPhase.stopped ∧
    ((TakeOffManeuver.evolutionState cfg0cap).phase_list.length = 1 ∧
      (LandingManeuver.evolutionState lcfg0).phase_list.length = 1) := by
  have h2 : (TakeOffManeuver.init_evolution_variables cfg0cap).altitude_list.headI
      < cfg0cap.end_take_off_altitude := by
    norm_num [TakeOffManeuver.init_evolution_variables, cfg0cap, cfg0]
  have h4 : (LandingManeuver.init_evolution_variables lcfg0).phase_list.headI
      ≠ LandingPhase.stopped := by
    simp [LandingManeuver.init_evolution_variables]
  exact ⟨rfl, h2, rfl, h4,
    C6_cap_one_single_state_amended cfg0cap lcfg0 rfl h2 rfl h4⟩

/-- **C7.** Constructing a `LandingManeuver` with exactly one of
`parachute_drag_coefficient` and `parachute_reference_surface` nonzero raises
immediately at construction (`construct` returns `none`); with both zero or
both nonzero it does not raise for that reason. -/
theorem C7_parachute_pairing_guard (pm : Plane) (rs iv : ℝ) (f : ℝ → ℝ)
    (gfc bfc ii ga pdc prs : ℝ) :
    LandingManeuver.construct pm rs iv f gfc bfc ii ga pdc prs = none ↔
      ((pdc = 0 ∧ prs ≠ 0) ∨ (pdc ≠ 0 ∧ prs = 0)) := by
  have key : (pdc * prs = 0 ∧ (prs ≠ 0 ∨ pdc ≠ 0)) ↔
      ((pdc = 0 ∧ prs ≠ 0) ∨ (pdc ≠ 0 ∧ prs = 0)) := by
    constructor
    · rintro ⟨hz, ho⟩
      rcases mul_eq_zero.mp hz with h0 | h0
      · rcases ho with h1 | h1
        · exact Or.inl ⟨h0, h1⟩
        · exact absurd h0 h1
      · rcases ho with h1 | h1
        · exact absurd h0 h1
        · exact Or.inr ⟨h1, h0⟩
    · rintro (⟨h0, h1⟩ | ⟨h0, h1⟩)
      · exact ⟨by rw [h0, zero_mul], Or.inl h1⟩
      · exact ⟨by rw [h1, mul_zero], Or.inr h0⟩
  rw [LandingManeuver.construct]
  split_ifs with h
  · exact iff_of_true rfl (key.mp h)
  · exact iff_of_false (by simp) fun hr => h (key.mpr hr)

/-- **C8.** `compute_evolution()` is idempotent: a second call on the same
maneuver instance yields trajectory sequences and timer fields identical to
the first call's, for both `TakeOffManeuver` and `LandingManeuver` — the run
re-initializes every mutable field from the configuration alone. -/
theorem C8_compute_evolution_idempotent (ot : TakeOffManeuver.Obj)
    (ol : LandingManeuver.Obj) :
    TakeOffManeuver.compute_evolution (TakeOffManeuver.compute_evolution ot)
      = TakeOffManeuver.compute_evolution ot ∧
    LandingManeuver.compute_evolution (LandingManeuver.compute_evolution ol)
      = LandingManeuver.compute_evolution ol :=
  ⟨rfl, rfl⟩

/-- **C9.** `TakeOffManeuver.__init__` never assigns the
`end_take_off_altitude` attribute from a non-`None` argument: with an explicit
requested end altitude the attribute is left unset (`none`), while with the
argument `None` it is set to `ground_altitude + 30`; the requested value is
ignored and the attribute stays unset until `compute_evolution` reads it. -/
theorem C9_end_take_off_altitude_ignored (pm : Plane) (rs trig : ℝ)
    (f : ℝ → ℝ) (gfc mga ga x : ℝ) :
    (TakeOffManeuver.construct pm rs trig f gfc mga ga
        (some x)).end_take_off_altitude = none ∧
    (TakeOffManeuver.construct pm rs trig f gfc mga ga
        (some x)).end_take_off_altitude ≠ some x ∧
    (TakeOffManeuver.construct pm rs trig f gfc mga ga
        none).end_take_off_altitude = some (ga + 30) := by
  refine ⟨rfl, ?_, rfl⟩
  simp [TakeOffManeuver.construct]

/-- **C10.** In both maneuvers the first recorded entry of `thrust_list`
(written at initialization) is `thrust_evolution_function(0)` alone, without
the nominal-thrust factor, whereas every entry appended by a loop step is
`plane_model.compute_thrust(altitude)` (the fixed ground altitude for
landing) multiplied by `thrust_evolution_function(current_time)`. -/
theorem C10_thrust_initial_entry_vs_appended (c : TakeOffManeuver.Config)
    (lc : LandingManeuver.Config) (s : TakeOffManeuver.State)
    (ls : LandingManeuver.State) :
    (TakeOffManeuver.init_evolution_variables c).thrust_list
      = [c.thrust_evolution_function 0] ∧
    (LandingManeuver.init_evolution_variables lc).thrust_list
      = [lc.thrust_evolution_function 0] ∧
    (TakeOffManeuver.step c s).thrust_list
      = c.plane_model.compute_thrust s.altitude_list.headI
          * c.thrust_evolution_function (s.time_list.headI + c.dt)
        :: s.thrust_list ∧
    (LandingManeuver.step lc ls).thrust_list
      = lc.plane_model.compute_thrust lc.ground_altitude
          * lc.thrust_evolution_function (ls.time_list.headI + lc.dt)
        :: ls.thrust_list :=
  ⟨rfl, rfl, rfl, rfl⟩
